import Mathlib

/-!
# S2I to devfile conversion (pkg/devfile/convert/convert.go)

A shallow embedding of the conversion of a legacy S2I component configuration
into a devfile descriptor and an env.yaml settings record.

Go slices are lists, Go pointers that may be nil are options, a Go
`for _, x := range xs` loop with `append` is a left fold that appends at the
end.  A function returning `error` returns an `Outcome`, which also records a
run-time panic (an index out of range or a nil dereference).
-/

namespace Convert

/-! ## Constants (convert.go, lines 20-37) -/

def buildCommandID : String := "s2i-assemble"
def buildCommandS2i : String := "/opt/odo/bin/s2i-setup && /opt/odo/bin/assemble-and-restart"
def runCommandID : String := "s2i-run"
def runCommandS2i : String := "/opt/odo/bin/run"
def containerName : String := "s2i-builder"
def sourceMappingS2i : String := "/tmp/projects"
def devfileVersion : String := "2.0.0"
def envS2iConvertedDevfile : String := "ODO_S2I_CONVERTED_DEVFILE"

/-! ## Errors and outcomes -/

/-- A Go `error` value, identified with its message. -/
abbrev Error := String

/-- The message built by `errors.Wrap(err, msg)` for a non-nil `err`. -/
def Wrap (err : Error) (msg : String) : Error := msg ++ ": " ++ err

/-- What a call of a Go function with an `error` result can do: return a value
with a nil error, return a non-nil error, or panic at run time. -/
inductive Outcome (α : Type) where
  | ok (a : α)
  | err (e : Error)
  | panic (msg : String)
  deriving Repr, DecidableEq

deriving instance DecidableEq for Except

/-! ## Legacy configuration (the fields and methods of `config.LocalConfigInfo`
that the conversion reads) -/

/-- One entry of `co.GetEnvVars()` (`config.EnvVar`). -/
structure EnvVar where
  Name : String
  Value : String
  deriving Repr, DecidableEq

abbrev EnvVarList := List EnvVar

/-- One entry of `localConfig.ListStorage()`. -/
structure ComponentStorageSettings where
  Name : String
  Size : String
  Path : String
  deriving Repr, DecidableEq

/-- One entry of `localConfig.ListURLs()`. -/
structure ConfigURL where
  Name : String
  Port : Int
  Secure : Bool
  deriving Repr, DecidableEq

/-- The legacy configuration, as the results of the getters the conversion
calls on it. `ListStorage` and `ListURLs` can fail. -/
structure LocalConfigInfo where
  GetType : String
  GetSourceType : String
  GetName : String
  GetApplication : String
  GetProject : String
  GetMaxMemory : String
  GetDebugPort : Int
  GetEnvVars : EnvVarList
  ListStorage : Except Error (List ComponentStorageSettings)
  ListURLs : Except Error (List ConfigURL)
  deriving Repr, DecidableEq

/-! ## Devfile data model (the fields of `devfilev1` that the conversion sets) -/

namespace devfilev1

structure EnvVar where
  Name : String
  Value : String
  deriving Repr, DecidableEq

structure VolumeMount where
  Name : String
  Path : String
  deriving Repr, DecidableEq

structure Endpoint where
  Name : String
  TargetPort : Int
  Secure : Bool
  deriving Repr, DecidableEq

structure Volume where
  Size : String
  deriving Repr, DecidableEq

structure VolumeComponent where
  Volume : Volume
  deriving Repr, DecidableEq

structure Container where
  Image : String
  MountSources : Option Bool
  SourceMapping : String
  MemoryLimit : String
  Env : List EnvVar
  VolumeMounts : List VolumeMount
  deriving Repr, DecidableEq

structure ContainerComponent where
  Container : Container
  Endpoints : List Endpoint
  deriving Repr, DecidableEq

/-- The discriminated union of a component: each kind is a nil-able pointer. -/
structure ComponentUnion where
  Container : Option ContainerComponent := none
  Volume : Option VolumeComponent := none
  deriving Repr, DecidableEq

structure Component where
  Name : String
  ComponentUnion : ComponentUnion
  deriving Repr, DecidableEq

inductive CommandGroupKind where
  | BuildCommandGroupKind
  | RunCommandGroupKind
  | TestCommandGroupKind
  | DebugCommandGroupKind
  deriving Repr, DecidableEq

structure CommandGroup where
  Kind : CommandGroupKind
  IsDefault : Bool
  deriving Repr, DecidableEq

structure BaseCommand where
  Group : Option CommandGroup := none
  deriving Repr, DecidableEq

structure LabeledCommand where
  BaseCommand : BaseCommand
  deriving Repr, DecidableEq

structure ExecCommand where
  LabeledCommand : LabeledCommand
  Component : String
  CommandLine : String
  deriving Repr, DecidableEq

structure CommandUnion where
  Exec : Option ExecCommand := none
  deriving Repr, DecidableEq

structure Command where
  Id : String
  CommandUnion : CommandUnion
  deriving Repr, DecidableEq

end devfilev1

/-- The name and version set by `SetMetadata`. -/
structure DevfileMetadata where
  Name : String
  Version : String
  deriving Repr, DecidableEq

/-- The descriptor held behind `data.DevfileData`. -/
structure DevfileData where
  SchemaVersion : String
  Metadata : DevfileMetadata
  Commands : List devfilev1.Command
  Components : List devfilev1.Component
  deriving Repr, DecidableEq

/-- Modelled from the spec: the descriptor library (`data.NewDevfileData`) is
not under src/; a new descriptor has no schema version, no metadata, no
commands and no components. -/
def DevfileData.fresh : DevfileData :=
  { SchemaVersion := "", Metadata := { Name := "", Version := "" }, Commands := [], Components := [] }

/-- Modelled from the spec: the descriptor library is not under src/; the
assembler "sets schema version". -/
def DevfileData.SetSchemaVersion (d : DevfileData) (version : String) : DevfileData :=
  { d with SchemaVersion := version }

/-- Modelled from the spec: the descriptor library is not under src/; the
assembler sets "metadata (name from legacy config, version constant)". -/
def DevfileData.SetMetadata (d : DevfileData) (name version : String) : DevfileData :=
  { d with Metadata := { Name := name, Version := version } }

/-- Modelled from the spec: the descriptor library is not under src/; the
assembler "attaches commands and components as built", which is pure data
composition. The caller discards the error result. -/
def DevfileData.AddComponents (d : DevfileData) (components : List devfilev1.Component) : DevfileData :=
  { d with Components := d.Components ++ components }

/-- Modelled from the spec: the descriptor library is not under src/; the
assembler "attaches commands and components as built", which is pure data
composition. The caller discards the error result. -/
def DevfileData.AddCommands (d : DevfileData) (commands : List devfilev1.Command) : DevfileData :=
  { d with Commands := d.Commands ++ commands }

/-! ## setDevfileComponentsForS2I (convert.go, lines 198-290) -/

/-- Lines 219-238: one pass of the loop over the storage volumes, appending a
Volume component and a VolumeMount. -/
def volumeStep (acc : List devfilev1.Component × List devfilev1.VolumeMount)
    (vol : ComponentStorageSettings) : List devfilev1.Component × List devfilev1.VolumeMount :=
  let volume : devfilev1.Component :=
    { Name := vol.Name
      ComponentUnion := { Volume := some { Volume := { Size := vol.Size } } } }
  let volumeMount : devfilev1.VolumeMount := { Name := vol.Name, Path := vol.Path }
  (acc.1 ++ [volume], acc.2 ++ [volumeMount])

/-- Lines 241-247: one pass of the loop over the S2I env list. -/
def envStep (envs : List devfilev1.EnvVar) (env : EnvVar) : List devfilev1.EnvVar :=
  envs ++ [{ Name := env.Name, Value := env.Value }]

/-- Lines 255-264: one pass of the loop over the URLs. -/
def endpointStep (endpoints : List devfilev1.Endpoint) (url : ConfigURL) : List devfilev1.Endpoint :=
  endpoints ++ [{ Name := url.Name, TargetPort := url.Port, Secure := url.Secure }]

/-- Lines 211-283: the component list built from the storage volumes, the URLs
and the S2I env list, once both lookups have succeeded. This is the argument of
`d.AddComponents`. -/
def s2iComponents (s2iImage maxMemory : String) (volumes : List ComponentStorageSettings)
    (urls : List ConfigURL) (s2iEnv : EnvVarList) : List devfilev1.Component :=
  let mountSources := true
  let endpoints : List devfilev1.Endpoint := []
  let envs : List devfilev1.EnvVar := []
  let volumeMounts : List devfilev1.VolumeMount := []
  let components : List devfilev1.Component := []
  let looped := volumes.foldl volumeStep (components, volumeMounts)
  let components := looped.1
  let volumeMounts := looped.2
  let envs := s2iEnv.foldl envStep envs
  let env : devfilev1.EnvVar := { Name := envS2iConvertedDevfile, Value := "true" }
  let envs := envs ++ [env]
  let endpoints := urls.foldl endpointStep endpoints
  let container : devfilev1.Component :=
    { Name := containerName
      ComponentUnion :=
        { Container := some
            { Container :=
                { Image := s2iImage
                  MountSources := some mountSources
                  SourceMapping := sourceMappingS2i
                  MemoryLimit := maxMemory
                  Env := envs
                  VolumeMounts := volumeMounts }
              Endpoints := endpoints } } }
  components ++ [container]

/-- The function `setDevfileComponentsForS2I`: the error it returns, if any,
and the descriptor afterwards. -/
def setDevfileComponentsForS2I (d : DevfileData) (s2iImage : String)
    (localConfig : LocalConfigInfo) (s2iEnv : EnvVarList) : Except Error DevfileData :=
  let maxMemory := localConfig.GetMaxMemory
  match localConfig.ListStorage with
  | .error err => .error err
  | .ok volumes =>
    match localConfig.ListURLs with
    | .error err => .error err
    | .ok urls => .ok (d.AddComponents (s2iComponents s2iImage maxMemory volumes urls s2iEnv))

/-! ## setDevfileCommandsForS2I (convert.go, lines 154-196) -/

/-- Lines 158-174. -/
def buildCommand : devfilev1.Command :=
  { Id := buildCommandID
    CommandUnion :=
      { Exec := some
          { Component := containerName
            CommandLine := buildCommandS2i
            LabeledCommand :=
              { BaseCommand :=
                  { Group := some { Kind := .BuildCommandGroupKind, IsDefault := true } } } } } }

/-- Lines 176-192. -/
def runCommand : devfilev1.Command :=
  { Id := runCommandID
    CommandUnion :=
      { Exec := some
          { Component := containerName
            CommandLine := runCommandS2i
            LabeledCommand :=
              { BaseCommand :=
                  { Group := some { Kind := .RunCommandGroupKind, IsDefault := true } } } } } }

/-- The function `setDevfileCommandsForS2I`: the descriptor afterwards. -/
def setDevfileCommandsForS2I (d : DevfileData) : DevfileData :=
  d.AddCommands [buildCommand, runCommand]

/-! ## GenerateEnvYaml (convert.go, lines 98-129) -/

/-- The settings record `envinfo.ComponentSettings`; `DebugPort` is a nil-able
pointer. -/
structure ComponentSettings where
  Name : String
  Project : String
  AppName : String
  DebugPort : Option Int := none
  deriving Repr, DecidableEq

/-- The value behind `*envinfo.EnvSpecificInfo`: where it lives and the
settings stored in it. -/
structure EnvSpecificInfo where
  context : String
  componentSettings : Option ComponentSettings
  deriving Repr, DecidableEq

/-- The parts of packages `config` and `envinfo` that `GenerateEnvYaml` uses and
that are not under src/. -/
structure EnvDeps where
  DefaultDebugPort : Int
  NewEnvSpecificInfo : String → Except Error EnvSpecificInfo
  SetComponentSettings : EnvSpecificInfo → ComponentSettings → Except Error EnvSpecificInfo

/-- Lines 102-120: the settings record built from the legacy configuration. -/
def envComponentSettings (DefaultDebugPort : Int) (co : LocalConfigInfo) : ComponentSettings :=
  let debugPort := co.GetDebugPort
  let application := co.GetApplication
  let componentSettings : ComponentSettings :=
    { Name := co.GetName, Project := co.GetProject, AppName := application }
  if debugPort ≠ 0 ∨ debugPort = DefaultDebugPort then
    { componentSettings with DebugPort := some debugPort }
  else
    componentSettings

/-- The function `GenerateEnvYaml`. -/
def GenerateEnvYaml (deps : EnvDeps) (co : LocalConfigInfo) (context : String) :
    Except Error EnvSpecificInfo :=
  match deps.NewEnvSpecificInfo context with
  | .error err => .error err
  | .ok envSpecificInfo =>
    let componentSettings := envComponentSettings deps.DefaultDebugPort co
    match deps.SetComponentSettings envSpecificInfo componentSettings with
    | .error err => .error err
    | .ok envSpecificInfo => .ok envSpecificInfo

/-! ## getImageforDevfile (convert.go, lines 131-152) -/

structure ObjectReference where
  Name : String
  deriving Repr, DecidableEq

/-- A tag of an image stream (`imagev1.TagReference`); `From` is a nil-able
pointer. -/
structure TagReference where
  From : Option ObjectReference
  deriving Repr, DecidableEq

structure ImageStreamSpec where
  Tags : List TagReference
  deriving Repr, DecidableEq

structure ImageStream where
  Spec : ImageStreamSpec
  deriving Repr, DecidableEq

/-- The resolved image (`imagev1.ImageStreamImage`), an opaque handle. -/
structure ImageStreamImage where
  Name : String
  deriving Repr, DecidableEq

/-- The two lookups of `occlient.Client` that the conversion calls. -/
structure Client where
  GetImageStream : String → String → String → Except Error ImageStream
  GetImageStreamImage : ImageStream → String → Except Error ImageStreamImage

/-- The location of the descriptor file (`devfileCtx.DevfileCtx`). -/
structure DevfileCtx where
  relPath : String
  absPath : String
  deriving Repr, DecidableEq

/-- The pair written by `WriteYamlDevfile` (`parser.DevfileObj`). -/
structure DevfileObj where
  Ctx : DevfileCtx
  Data : DevfileData
  deriving Repr, DecidableEq

/-- The functions of package `occlient`, of the descriptor library and of the
standard library that `GenerateDevfileYaml` calls and that are not under src/. -/
structure Deps where
  ParseImageName : String → Except Error (String × String × String × String)
  GetS2IEnvForDevfile : String → EnvVarList → ImageStreamImage → Except Error EnvVarList
  NewDevfileDataFails : String → Option Error
  filepathJoin : String → String → String
  SetAbsPath : DevfileCtx → Except Error DevfileCtx
  WriteYamlDevfile : DevfileObj → Option Error

/-- Modelled from the spec: the descriptor library is not under src/; the
constructor either fails or gives a new, empty descriptor. -/
def NewDevfileData (deps : Deps) (version : String) : Except Error DevfileData :=
  match deps.NewDevfileDataFails version with
  | some err => .error err
  | none => .ok DevfileData.fresh

/-- The constructor `devfileCtx.NewDevfileCtx`, which records the path given. -/
def NewDevfileCtx (path : String) : DevfileCtx := { relPath := path, absPath := "" }

/-- The function `getImageforDevfile`. Line 149 indexes position 0 of the tag
list and dereferences its `From` pointer with no check. -/
def getImageforDevfile (deps : Deps) (client : Client) (componentType : String) :
    Outcome (ImageStreamImage × String) :=
  match deps.ParseImageName componentType with
  | .error err => .err err
  | .ok (imageNS, imageName, imageTag, _) =>
    match client.GetImageStream imageNS imageName imageTag with
    | .error err => .err err
    | .ok imageStream =>
      match client.GetImageStreamImage imageStream imageTag with
      | .error err => .err err
      | .ok imageStreamImage =>
        match imageStream.Spec.Tags with
        | [] => .panic "runtime error: index out of range [0] with length 0"
        | tag :: _ =>
          match tag.From with
          | none => .panic "runtime error: invalid memory address or nil pointer dereference"
          | some reference => .ok (imageStreamImage, reference.Name)

/-! ## GenerateDevfileYaml (convert.go, lines 39-96) -/

/-- What a call of `GenerateDevfileYaml` does: its result and the log of the
calls of `WriteYamlDevfile`, oldest first. -/
structure Run where
  result : Outcome Unit
  writes : List DevfileObj
  deriving Repr, DecidableEq

/-- The function `GenerateDevfileYaml`. -/
def GenerateDevfileYaml (deps : Deps) (client : Client) (co : LocalConfigInfo)
    (context : String) : Run :=
  let componentType := co.GetType
  let sourceType := co.GetSourceType
  match getImageforDevfile deps client componentType with
  | .panic msg => { result := .panic msg, writes := [] }
  | .err err => { result := .err (Wrap err "Failed to get image details"), writes := [] }
  | .ok (imageStream, imageforDevfile) =>
    let envVarList := co.GetEnvVars
    match deps.GetS2IEnvForDevfile sourceType envVarList imageStream with
    | .error err => { result := .err err, writes := [] }
    | .ok s2iEnv =>
      match NewDevfileData deps devfileVersion with
      | .error err => { result := .err err, writes := [] }
      | .ok s2iDevfile =>
        let s2iDevfile := s2iDevfile.SetSchemaVersion devfileVersion
        let s2iDevfile := s2iDevfile.SetMetadata co.GetName "1.0.0"
        match setDevfileComponentsForS2I s2iDevfile imageforDevfile co s2iEnv with
        | .error err => { result := .err err, writes := [] }
        | .ok s2iDevfile =>
          let s2iDevfile := setDevfileCommandsForS2I s2iDevfile
          let ctx := NewDevfileCtx (deps.filepathJoin context "devfile.yaml")
          match deps.SetAbsPath ctx with
          | .error err => { result := .err err, writes := [] }
          | .ok ctx =>
            let devObj : DevfileObj := { Ctx := ctx, Data := s2iDevfile }
            match deps.WriteYamlDevfile devObj with
            | some err => { result := .err err, writes := [devObj] }
            | none => { result := .ok (), writes := [devObj] }

/-! ## The loops as maps -/

/-- The Volume component made of one storage volume (lines 220-229). -/
def volumeComponentOf (vol : ComponentStorageSettings) : devfilev1.Component :=
  { Name := vol.Name, ComponentUnion := { Volume := some { Volume := { Size := vol.Size } } } }

/-- The VolumeMount made of one storage volume (lines 232-235). -/
def volumeMountOf (vol : ComponentStorageSettings) : devfilev1.VolumeMount :=
  { Name := vol.Name, Path := vol.Path }

/-- The EnvVar made of one entry of the S2I env list (lines 242-245). -/
def envVarOf (env : EnvVar) : devfilev1.EnvVar := { Name := env.Name, Value := env.Value }

/-- The Endpoint made of one URL (lines 257-261). -/
def endpointOf (url : ConfigURL) : devfilev1.Endpoint :=
  { Name := url.Name, TargetPort := url.Port, Secure := url.Secure }

/-- The conversion marker appended at lines 248-252. -/
def markerEnv : devfilev1.EnvVar := { Name := "ODO_S2I_CONVERTED_DEVFILE", Value := "true" }

/-- The Container component assembled at lines 266-281, from its parts. -/
def containerOf (s2iImage maxMemory : String) (envs : List devfilev1.EnvVar)
    (volumeMounts : List devfilev1.VolumeMount) (endpoints : List devfilev1.Endpoint) :
    devfilev1.Component :=
  { Name := "s2i-builder"
    ComponentUnion :=
      { Container := some
          { Container :=
              { Image := s2iImage
                MountSources := some true
                SourceMapping := "/tmp/projects"
                MemoryLimit := maxMemory
                Env := envs
                VolumeMounts := volumeMounts }
            Endpoints := endpoints }
        Volume := none } }

/-- A component is of Container kind when its `Container` pointer is set. -/
def isContainerKind (c : devfilev1.Component) : Bool := c.ComponentUnion.Container.isSome

/-- A component is of Volume kind when its `Volume` pointer is set. -/
def isVolumeKind (c : devfilev1.Component) : Bool := c.ComponentUnion.Volume.isSome

/-! ## Sample inputs -/

def sampleVolumes : List ComponentStorageSettings :=
  [ { Name := "data", Size := "1Gi", Path := "/data" },
    { Name := "cache", Size := "512Mi", Path := "/cache" } ]

def sampleURLs : List ConfigURL :=
  [ { Name := "web", Port := 8080, Secure := false },
    { Name := "admin", Port := 8443, Secure := true } ]

def sampleEnv : EnvVarList :=
  [ { Name := "FOO", Value := "bar" }, { Name := "BAZ", Value := "qux" } ]

def sampleConfig : LocalConfigInfo :=
  { GetType := "openshift/nodejs:latest"
    GetSourceType := "local"
    GetName := "frontend"
    GetApplication := "app"
    GetProject := "myproject"
    GetMaxMemory := "512Mi"
    GetDebugPort := 5858
    GetEnvVars := sampleEnv
    ListStorage := .ok sampleVolumes
    ListURLs := .ok sampleURLs }

/-- A legacy configuration with two volumes of the same name, which is also
the name of the container component. -/
def collidingConfig : LocalConfigInfo :=
  { sampleConfig with
    ListStorage := .ok
      [ { Name := "s2i-builder", Size := "1Gi", Path := "/a" },
        { Name := "s2i-builder", Size := "2Gi", Path := "/b" } ] }

/-- An image stream whose first tag points at a pull specification. -/
def sampleImageStream : ImageStream :=
  { Spec := { Tags := [ { From := some { Name := "registry.example/nodejs@sha256:0a" } } ] } }

/-- A client whose two lookups succeed. -/
def sampleClient : Client :=
  { GetImageStream := fun _ _ _ => .ok sampleImageStream
    GetImageStreamImage := fun _ _ => .ok { Name := "nodejs-image" } }

/-- A client whose two lookups succeed on a stream with no tag. -/
def emptyTagsClient : Client :=
  { GetImageStream := fun _ _ _ => .ok { Spec := { Tags := [] } }
    GetImageStreamImage := fun _ _ => .ok { Name := "nodejs-image" } }

/-- Collaborators that all succeed; the S2I env computation appends the
location of the S2I scripts to the legacy variables. -/
def sampleDeps : Deps :=
  { ParseImageName := fun _ => .ok ("openshift", "nodejs", "latest", "")
    GetS2IEnvForDevfile := fun _ env _ =>
      .ok (env ++ [ { Name := "ODO_S2I_SCRIPTS_URL", Value := "/usr/libexec/s2i" } ])
    NewDevfileDataFails := fun _ => none
    filepathJoin := fun dir file => dir ++ "/" ++ file
    SetAbsPath := fun ctx => .ok { ctx with absPath := ctx.relPath }
    WriteYamlDevfile := fun _ => none }

/-- Collaborators for `GenerateEnvYaml` that succeed and store the settings. -/
def sampleEnvDeps (DefaultDebugPort : Int) : EnvDeps :=
  { DefaultDebugPort := DefaultDebugPort
    NewEnvSpecificInfo := fun context => .ok { context := context, componentSettings := none }
    SetComponentSettings := fun info settings => .ok { info with componentSettings := some settings } }

/-- The descriptor that `GenerateDevfileYaml` has assembled when it reaches the
write, in closed form: lines 59-75 applied to a new descriptor. -/
def assembledDevfile (imageforDevfile : String) (co : LocalConfigInfo) (s2iEnv : EnvVarList)
    (volumes : List ComponentStorageSettings) (urls : List ConfigURL) : DevfileData :=
  { SchemaVersion := "2.0.0"
    Metadata := { Name := co.GetName, Version := "1.0.0" }
    Commands := [buildCommand, runCommand]
    Components := volumes.map volumeComponentOf
      ++ [containerOf imageforDevfile co.GetMaxMemory (s2iEnv.map envVarOf ++ [markerEnv])
            (volumes.map volumeMountOf) (urls.map endpointOf)] }

/-- A legacy configuration whose storage listing fails. -/
def failingStorageConfig : LocalConfigInfo :=
  { sampleConfig with ListStorage := .error "unable to list storage" }

/-- The group of a command: the `Group` pointer of its exec command, if any. -/
def groupOf (c : devfilev1.Command) : Option devfilev1.CommandGroup :=
  c.CommandUnion.Exec.bind fun e => e.LabeledCommand.BaseCommand.Group

/-- A command is the default of the group kind `k`. -/
def isDefaultOf (k : devfilev1.CommandGroupKind) (c : devfilev1.Command) : Bool :=
  groupOf c == some { Kind := k, IsDefault := true }

end Convert

/-! # The port-forward command (pkg/odo/cli/experimental/debug/portforward.go) -/

namespace Debug

open Convert

/-- The fields of `PortForwardOptions` that flag parsing and `Complete` set.
`localConfigInfo` is a nil-able pointer. -/
structure PortForwardOptions where
  PortPair : String := ""
  localPort : Int := 0
  contextDir : String := ""
  localConfigInfo : Option LocalConfigInfo := none
  deriving Repr, DecidableEq

/-- The text that `fmt.Sprintf` writes for one `%d` verb. -/
def formatInt (n : Int) : String := toString n

/-- Lines 63-65. -/
def NewPortForwardOptions : PortForwardOptions := {}

/-- Lines 133-149 followed by the parsing of the command line: the options as
`Complete` finds them. `--context` fills `contextDir`; `--local-port` fills
`localPort`, whose value when the flag is not given is the default registered
at line 146, `config.DefaultDebugPort`. -/
def NewCmdPortForward (DefaultDebugPort : Int) (contextFlag : Option String)
    (localPortFlag : Option Int) : PortForwardOptions :=
  let opts := NewPortForwardOptions
  let opts := { opts with contextDir := match contextFlag with
                                        | some dir => dir
                                        | none => opts.contextDir }
  { opts with localPort := match localPortFlag with
                           | some port => port
                           | none => DefaultDebugPort }

/-- The method `PortForwardOptions.Complete` (lines 68-83), with
`config.NewLocalConfigInfo` as a parameter. The error of line 71 is not
checked: when the configuration cannot be loaded `cfg` is nil and line 74
dereferences it. -/
def Complete (NewLocalConfigInfo : String → Except Error LocalConfigInfo)
    (o : PortForwardOptions) : Outcome PortForwardOptions :=
  match NewLocalConfigInfo o.contextDir with
  | .error _ => .panic "runtime error: invalid memory address or nil pointer dereference"
  | .ok cfg =>
    let o := { o with localConfigInfo := some cfg }
    let remotePort := cfg.GetDebugPort
    let o := { o with PortPair := formatInt o.localPort ++ ":" ++ formatInt remotePort }
    .ok o

/-- A legacy configuration that records the debug port 9229. -/
def inspectorConfig : LocalConfigInfo := { sampleConfig with GetDebugPort := 9229 }

end Debug

namespace Convert

theorem foldl_volumeStep (volumes : List ComponentStorageSettings)
    (acc : List devfilev1.Component × List devfilev1.VolumeMount) :
    volumes.foldl volumeStep acc
      = (acc.1 ++ volumes.map volumeComponentOf, acc.2 ++ volumes.map volumeMountOf) := by
  induction volumes generalizing acc with
  | nil => simp
  | cons v vs ih =>
    rw [List.foldl_cons, ih]
    simp [volumeStep, volumeComponentOf, volumeMountOf]

theorem foldl_envStep (s2iEnv : EnvVarList) (acc : List devfilev1.EnvVar) :
    s2iEnv.foldl envStep acc = acc ++ s2iEnv.map envVarOf := by
  induction s2iEnv generalizing acc with
  | nil => simp
  | cons v vs ih =>
    rw [List.foldl_cons, ih]
    simp [envStep, envVarOf]

theorem foldl_endpointStep (urls : List ConfigURL) (acc : List devfilev1.Endpoint) :
    urls.foldl endpointStep acc = acc ++ urls.map endpointOf := by
  induction urls generalizing acc with
  | nil => simp
  | cons v vs ih =>
    rw [List.foldl_cons, ih]
    simp [endpointStep, endpointOf]

/-- The component list built by lines 211-283 in closed form. -/
theorem s2iComponents_eq (s2iImage maxMemory : String) (volumes : List ComponentStorageSettings)
    (urls : List ConfigURL) (s2iEnv : EnvVarList) :
    s2iComponents s2iImage maxMemory volumes urls s2iEnv
      = volumes.map volumeComponentOf
          ++ [containerOf s2iImage maxMemory (s2iEnv.map envVarOf ++ [markerEnv])
                (volumes.map volumeMountOf) (urls.map endpointOf)] := by
  simp [s2iComponents, foldl_volumeStep, foldl_envStep, foldl_endpointStep, containerOf,
    markerEnv, containerName, sourceMappingS2i, envS2iConvertedDevfile]

/-- What `setDevfileComponentsForS2I` returns once both lookups have succeeded. -/
theorem setDevfileComponentsForS2I_ok (d : DevfileData) (s2iImage : String)
    (localConfig : LocalConfigInfo) (s2iEnv : EnvVarList)
    (volumes : List ComponentStorageSettings) (urls : List ConfigURL)
    (hs : localConfig.ListStorage = .ok volumes) (hu : localConfig.ListURLs = .ok urls) :
    setDevfileComponentsForS2I d s2iImage localConfig s2iEnv
      = .ok (d.AddComponents
          (volumes.map volumeComponentOf
            ++ [containerOf s2iImage localConfig.GetMaxMemory (s2iEnv.map envVarOf ++ [markerEnv])
                  (volumes.map volumeMountOf) (urls.map endpointOf)])) := by
  simp [setDevfileComponentsForS2I, hs, hu, s2iComponents_eq]

theorem filter_isVolumeKind_map (volumes : List ComponentStorageSettings) :
    (volumes.map volumeComponentOf).filter isVolumeKind = volumes.map volumeComponentOf := by
  induction volumes with
  | nil => rfl
  | cons v vs ih => simp [List.filter, isVolumeKind, volumeComponentOf] at ih ⊢

theorem filter_isContainerKind_map (volumes : List ComponentStorageSettings) :
    (volumes.map volumeComponentOf).filter isContainerKind = [] := by
  induction volumes with
  | nil => rfl
  | cons v vs ih => simp [List.filter, isContainerKind, volumeComponentOf] at ih ⊢

/-- Every run of `GenerateDevfileYaml` either writes nothing and returns an
error or panics inside `getImageforDevfile`, or has passed every stage and
writes the assembled descriptor once. -/
theorem GenerateDevfileYaml_cases (deps : Deps) (client : Client) (co : LocalConfigInfo)
    (context : String) :
    ((GenerateDevfileYaml deps client co context).writes = []
        ∧ ((∃ e, (GenerateDevfileYaml deps client co context).result = .err e)
            ∨ ∃ msg, getImageforDevfile deps client co.GetType = .panic msg
                ∧ (GenerateDevfileYaml deps client co context).result = .panic msg))
      ∨ ∃ isi img s2iEnv volumes urls ctx,
          getImageforDevfile deps client co.GetType = .ok (isi, img)
          ∧ deps.GetS2IEnvForDevfile co.GetSourceType co.GetEnvVars isi = .ok s2iEnv
          ∧ deps.NewDevfileDataFails devfileVersion = none
          ∧ co.ListStorage = .ok volumes
          ∧ co.ListURLs = .ok urls
          ∧ deps.SetAbsPath (NewDevfileCtx (deps.filepathJoin context "devfile.yaml")) = .ok ctx
          ∧ (GenerateDevfileYaml deps client co context).writes
              = [{ Ctx := ctx, Data := assembledDevfile img co s2iEnv volumes urls }]
          ∧ ((GenerateDevfileYaml deps client co context).result = .ok ()
              ↔ deps.WriteYamlDevfile
                  { Ctx := ctx, Data := assembledDevfile img co s2iEnv volumes urls } = none) := by
  cases h1 : getImageforDevfile deps client co.GetType with
  | panic msg => left; simp [GenerateDevfileYaml, h1]
  | err e => left; simp [GenerateDevfileYaml, h1]
  | ok a =>
    obtain ⟨isi, img⟩ := a
    cases h2 : deps.GetS2IEnvForDevfile co.GetSourceType co.GetEnvVars isi with
    | error e => left; simp [GenerateDevfileYaml, h1, h2]
    | ok s2iEnv =>
      cases h3 : deps.NewDevfileDataFails devfileVersion with
      | some e => left; simp [GenerateDevfileYaml, h1, h2, NewDevfileData, h3]
      | none =>
        cases h4 : co.ListStorage with
        | error e =>
          left; simp [GenerateDevfileYaml, h1, h2, NewDevfileData, h3, setDevfileComponentsForS2I, h4]
        | ok volumes =>
          cases h5 : co.ListURLs with
          | error e =>
            left
            simp [GenerateDevfileYaml, h1, h2, NewDevfileData, h3, setDevfileComponentsForS2I, h4, h5]
          | ok urls =>
            cases h6 : deps.SetAbsPath (NewDevfileCtx (deps.filepathJoin context "devfile.yaml")) with
            | error e =>
              left
              simp [GenerateDevfileYaml, h1, h2, NewDevfileData, h3, setDevfileComponentsForS2I, h4,
                h5, h6]
            | ok ctx =>
              right
              refine ⟨isi, img, s2iEnv, volumes, urls, ctx, ?_, ?_, ?_, ?_, ?_, ?_, ?_⟩
              iterate 6 first | rfl | assumption
              have hd : setDevfileCommandsForS2I
                  ((((DevfileData.fresh).SetSchemaVersion devfileVersion).SetMetadata co.GetName
                      "1.0.0").AddComponents
                    (s2iComponents img co.GetMaxMemory volumes urls s2iEnv))
                  = assembledDevfile img co s2iEnv volumes urls := by
                simp [setDevfileCommandsForS2I, DevfileData.AddCommands,
                  DevfileData.AddComponents, DevfileData.SetMetadata,
                  DevfileData.SetSchemaVersion, DevfileData.fresh, assembledDevfile,
                  s2iComponents_eq, devfileVersion]
              simp only [GenerateDevfileYaml, h1, h2, NewDevfileData, h3,
                setDevfileComponentsForS2I, h4, h5, h6, hd]
              cases h7 : deps.WriteYamlDevfile
                  { Ctx := ctx, Data := assembledDevfile img co s2iEnv volumes urls } with
              | some e => simp
              | none => simp

/-! ## The component list -/

/-- C1: when ListStorage returns the volumes and ListURLs succeeds, the list
that setDevfileComponentsForS2I hands to AddComponents is one Volume component
per storage volume (name and size copied, in the order of the storage list)
followed by one Container component as the last element, so it has as many
Volume components as there are storage volumes. -/
theorem C1_volumes_then_container (d : DevfileData) (s2iImage : String)
    (localConfig : LocalConfigInfo) (s2iEnv : EnvVarList)
    (volumes : List ComponentStorageSettings) (urls : List ConfigURL)
    (hs : localConfig.ListStorage = .ok volumes) (hu : localConfig.ListURLs = .ok urls) :
    ∃ container : devfilev1.Component,
      setDevfileComponentsForS2I d s2iImage localConfig s2iEnv
        = .ok (d.AddComponents
            (volumes.map (fun v =>
                ({ Name := v.Name
                   ComponentUnion := { Container := none, Volume := some { Volume := { Size := v.Size } } } }
                  : devfilev1.Component))
              ++ [container]))
      ∧ isContainerKind container = true
      ∧ isVolumeKind container = false
      ∧ ((volumes.map volumeComponentOf ++ [container]).filter isVolumeKind).length = volumes.length
      ∧ (volumes.map volumeComponentOf ++ [container]).getLast? = some container
      ∧ ∀ c ∈ volumes.map volumeComponentOf, isVolumeKind c = true ∧ isContainerKind c = false := by
  refine ⟨containerOf s2iImage localConfig.GetMaxMemory (s2iEnv.map envVarOf ++ [markerEnv])
    (volumes.map volumeMountOf) (urls.map endpointOf), ?_, rfl, rfl, ?_, ?_, ?_⟩
  · rw [setDevfileComponentsForS2I_ok d s2iImage localConfig s2iEnv volumes urls hs hu]
    rfl
  · rw [List.filter_append, filter_isVolumeKind_map]
    simp [List.filter, isVolumeKind, containerOf]
  · simp
  · intro c hc
    obtain ⟨v, -, rfl⟩ := List.mem_map.1 hc
    exact ⟨rfl, rfl⟩

theorem C1_volumes_then_container_witness :
    sampleConfig.ListStorage = .ok sampleVolumes ∧ sampleConfig.ListURLs = .ok sampleURLs
    ∧ ∃ container : devfilev1.Component,
      setDevfileComponentsForS2I DevfileData.fresh "img" sampleConfig sampleEnv
        = .ok (DevfileData.fresh.AddComponents
            (sampleVolumes.map (fun v =>
                ({ Name := v.Name
                   ComponentUnion := { Container := none, Volume := some { Volume := { Size := v.Size } } } }
                  : devfilev1.Component))
              ++ [container]))
      ∧ isContainerKind container = true
      ∧ isVolumeKind container = false
      ∧ ((sampleVolumes.map volumeComponentOf ++ [container]).filter isVolumeKind).length
          = sampleVolumes.length
      ∧ (sampleVolumes.map volumeComponentOf ++ [container]).getLast? = some container
      ∧ ∀ c ∈ sampleVolumes.map volumeComponentOf,
          isVolumeKind c = true ∧ isContainerKind c = false :=
  ⟨rfl, rfl,
    C1_volumes_then_container DevfileData.fresh "img" sampleConfig sampleEnv sampleVolumes
      sampleURLs rfl rfl⟩

/-- C2: for every env list passed to setDevfileComponentsForS2I, the empty one
included, the Env list of the container is the entries of that list as
(Name, Value) pairs in the same order, followed by one extra entry named
ODO_S2I_CONVERTED_DEVFILE with value "true": the marker is the last entry and
the list is one longer than the list passed. -/
theorem C2_env_then_marker (d : DevfileData) (s2iImage : String)
    (localConfig : LocalConfigInfo) (s2iEnv : EnvVarList)
    (volumes : List ComponentStorageSettings) (urls : List ConfigURL)
    (hs : localConfig.ListStorage = .ok volumes) (hu : localConfig.ListURLs = .ok urls) :
    ∃ cc : devfilev1.ContainerComponent,
      setDevfileComponentsForS2I d s2iImage localConfig s2iEnv
        = .ok (d.AddComponents
            (volumes.map volumeComponentOf
              ++ [{ Name := containerName, ComponentUnion := { Container := some cc } }]))
      ∧ cc.Container.Env
          = s2iEnv.map (fun e => ({ Name := e.Name, Value := e.Value } : devfilev1.EnvVar))
              ++ [{ Name := "ODO_S2I_CONVERTED_DEVFILE", Value := "true" }]
      ∧ cc.Container.Env.getLast?
          = some { Name := envS2iConvertedDevfile, Value := "true" }
      ∧ cc.Container.Env.length = s2iEnv.length + 1
      ∧ (s2iEnv = [] →
          cc.Container.Env = [{ Name := "ODO_S2I_CONVERTED_DEVFILE", Value := "true" }]) := by
  refine ⟨{ Container :=
              { Image := s2iImage
                MountSources := some true
                SourceMapping := "/tmp/projects"
                MemoryLimit := localConfig.GetMaxMemory
                Env := s2iEnv.map envVarOf ++ [markerEnv]
                VolumeMounts := volumes.map volumeMountOf }
            Endpoints := urls.map endpointOf }, ?_, rfl, ?_, ?_, ?_⟩
  · rw [setDevfileComponentsForS2I_ok d s2iImage localConfig s2iEnv volumes urls hs hu]
    rfl
  · simp [markerEnv, envS2iConvertedDevfile]
  · simp
  · intro h
    simp [h, markerEnv]

theorem C2_env_then_marker_witness :
    sampleConfig.ListStorage = .ok sampleVolumes ∧ sampleConfig.ListURLs = .ok sampleURLs
    ∧ ∃ cc : devfilev1.ContainerComponent,
      setDevfileComponentsForS2I DevfileData.fresh "img" sampleConfig []
        = .ok (DevfileData.fresh.AddComponents
            (sampleVolumes.map volumeComponentOf
              ++ [{ Name := containerName, ComponentUnion := { Container := some cc } }]))
      ∧ cc.Container.Env
          = ([] : EnvVarList).map
                (fun e => ({ Name := e.Name, Value := e.Value } : devfilev1.EnvVar))
              ++ [{ Name := "ODO_S2I_CONVERTED_DEVFILE", Value := "true" }]
      ∧ cc.Container.Env.getLast?
          = some { Name := envS2iConvertedDevfile, Value := "true" }
      ∧ cc.Container.Env.length = ([] : EnvVarList).length + 1
      ∧ (([] : EnvVarList) = [] →
          cc.Container.Env = [{ Name := "ODO_S2I_CONVERTED_DEVFILE", Value := "true" }]) :=
  ⟨rfl, rfl,
    C2_env_then_marker DevfileData.fresh "img" sampleConfig [] sampleVolumes sampleURLs rfl rfl⟩

/-- C3: whenever the conversion succeeds, whatever the names of the storage
volumes, the descriptor it has written contains exactly one component of
Container kind, and that component is named "s2i-builder". -/
theorem C3_exactly_one_container (deps : Deps) (client : Client) (co : LocalConfigInfo)
    (context : String)
    (h : (GenerateDevfileYaml deps client co context).result = .ok ()) :
    ∃ (obj : DevfileObj) (c : devfilev1.Component),
      (GenerateDevfileYaml deps client co context).writes = [obj]
      ∧ obj.Data.Components.filter isContainerKind = [c]
      ∧ c.Name = "s2i-builder"
      ∧ (obj.Data.Components.filter isContainerKind).length = 1 := by
  rcases GenerateDevfileYaml_cases deps client co context with ⟨-, ⟨e, he⟩ | ⟨m, -, hm⟩⟩ | hok
  · rw [h] at he
    exact absurd he (by simp)
  · rw [h] at hm
    exact absurd hm (by simp)
  · obtain ⟨isi, img, s2iEnv, volumes, urls, ctx, -, -, -, -, -, -, hw, -⟩ := hok
    refine ⟨_, containerOf img co.GetMaxMemory (s2iEnv.map envVarOf ++ [markerEnv])
      (volumes.map volumeMountOf) (urls.map endpointOf), hw, ?_, rfl, ?_⟩
    · simp only [assembledDevfile]
      rw [List.filter_append, filter_isContainerKind_map]
      simp [List.filter, isContainerKind, containerOf]
    · simp only [assembledDevfile]
      rw [List.filter_append, filter_isContainerKind_map]
      simp [List.filter, isContainerKind, containerOf]

theorem C3_exactly_one_container_witness :
    (GenerateDevfileYaml sampleDeps sampleClient collidingConfig "/work").result = .ok ()
    ∧ ∃ (obj : DevfileObj) (c : devfilev1.Component),
      (GenerateDevfileYaml sampleDeps sampleClient collidingConfig "/work").writes = [obj]
      ∧ obj.Data.Components.filter isContainerKind = [c]
      ∧ c.Name = "s2i-builder"
      ∧ (obj.Data.Components.filter isContainerKind).length = 1 :=
  ⟨rfl, C3_exactly_one_container sampleDeps sampleClient collidingConfig "/work" rfl⟩

/-! ## The commands -/

/-- C4: setDevfileCommandsForS2I applied to a new descriptor adds exactly two
commands, build then run: the first has id "s2i-assemble" and is the default of
group Build, the second has id "s2i-run" and is the default of group Run, both
are exec commands on component "s2i-builder"; each of the two groups has exactly
one default command and the two ids differ. -/
theorem C4_build_then_run :
    (setDevfileCommandsForS2I DevfileData.fresh).Commands = [buildCommand, runCommand]
    ∧ (setDevfileCommandsForS2I DevfileData.fresh).Commands.length = 2
    ∧ buildCommand.Id = "s2i-assemble"
    ∧ runCommand.Id = "s2i-run"
    ∧ groupOf buildCommand = some { Kind := .BuildCommandGroupKind, IsDefault := true }
    ∧ groupOf runCommand = some { Kind := .RunCommandGroupKind, IsDefault := true }
    ∧ buildCommand.CommandUnion.Exec.map (fun e => e.Component) = some "s2i-builder"
    ∧ runCommand.CommandUnion.Exec.map (fun e => e.Component) = some "s2i-builder"
    ∧ ((setDevfileCommandsForS2I DevfileData.fresh).Commands.filter
          (isDefaultOf .BuildCommandGroupKind)).length = 1
    ∧ ((setDevfileCommandsForS2I DevfileData.fresh).Commands.filter
          (isDefaultOf .RunCommandGroupKind)).length = 1
    ∧ buildCommand.Id ≠ runCommand.Id
    ∧ ∀ d : DevfileData,
        (setDevfileCommandsForS2I d).Commands = d.Commands ++ [buildCommand, runCommand] := by
  refine ⟨rfl, rfl, rfl, rfl, rfl, rfl, rfl, rfl, by decide, by decide, by decide, ?_⟩
  intro d
  rfl

/-! ## The settings record -/

/-- C5: for every legacy debug port p and every DefaultDebugPort D, the settings
built by GenerateEnvYaml have DebugPort present if and only if p is not 0 or p
equals D, and then its value is p; p = 0 with D = 0 gives a present 0, p = 0
with D = 5858 gives an absent field, p = 5858 gives a present 5858. Name,
Project and AppName are those of the config, and this record is the one that
GenerateEnvYaml passes to SetComponentSettings. -/
theorem C5_debug_port_field (D : Int) (co : LocalConfigInfo) :
    ((envComponentSettings D co).DebugPort.isSome = true
        ↔ (co.GetDebugPort ≠ 0 ∨ co.GetDebugPort = D))
    ∧ (∀ v, (envComponentSettings D co).DebugPort = some v → v = co.GetDebugPort)
    ∧ (co.GetDebugPort = 0 → D = 0 → (envComponentSettings D co).DebugPort = some 0)
    ∧ (co.GetDebugPort = 0 → D = 5858 → (envComponentSettings D co).DebugPort = none)
    ∧ (co.GetDebugPort = 5858 → (envComponentSettings D co).DebugPort = some 5858)
    ∧ (envComponentSettings D co).Name = co.GetName
    ∧ (envComponentSettings D co).Project = co.GetProject
    ∧ (envComponentSettings D co).AppName = co.GetApplication
    ∧ ∀ (deps : EnvDeps) (context : String) (info : EnvSpecificInfo),
        deps.DefaultDebugPort = D → deps.NewEnvSpecificInfo context = .ok info →
        GenerateEnvYaml deps co context
          = deps.SetComponentSettings info (envComponentSettings D co) := by
  refine ⟨?_, ?_, ?_, ?_, ?_, ?_, ?_, ?_, ?_⟩
  · unfold envComponentSettings
    by_cases hc : co.GetDebugPort ≠ 0 ∨ co.GetDebugPort = D
    · simp [hc]
    · simp [hc]
  · intro v
    unfold envComponentSettings
    by_cases hc : co.GetDebugPort ≠ 0 ∨ co.GetDebugPort = D
    · simp only [if_pos hc]
      intro hv
      exact (Option.some.inj hv).symm
    · simp only [if_neg hc]
      intro hv
      exact absurd hv (by simp)
  · intro hp hD
    simp [envComponentSettings, hp, hD]
  · intro hp hD
    simp [envComponentSettings, hp, hD]
  · intro hp
    simp [envComponentSettings, hp]
  · simp only [envComponentSettings]
    split <;> rfl
  · simp only [envComponentSettings]
    split <;> rfl
  · simp only [envComponentSettings]
    split <;> rfl
  · intro deps context info hD hnew
    subst hD
    simp only [GenerateEnvYaml, hnew]
    cases hset : deps.SetComponentSettings info (envComponentSettings deps.DefaultDebugPort co) <;>
      rfl

theorem C5_debug_port_field_witness :
    (envComponentSettings 0 { sampleConfig with GetDebugPort := 0 }).DebugPort = some 0
    ∧ (envComponentSettings 5858 { sampleConfig with GetDebugPort := 0 }).DebugPort = none
    ∧ (envComponentSettings 5858 sampleConfig).DebugPort = some 5858
    ∧ GenerateEnvYaml (sampleEnvDeps 5858) sampleConfig "/work"
        = (sampleEnvDeps 5858).SetComponentSettings
            { context := "/work", componentSettings := none }
            (envComponentSettings 5858 sampleConfig) :=
  ⟨(C5_debug_port_field 0 { sampleConfig with GetDebugPort := 0 }).2.2.1 rfl rfl,
   (C5_debug_port_field 5858 { sampleConfig with GetDebugPort := 0 }).2.2.2.1 rfl rfl,
   (C5_debug_port_field 5858 sampleConfig).2.2.2.2.1 rfl,
   (C5_debug_port_field 5858 sampleConfig).2.2.2.2.2.2.2.2 (sampleEnvDeps 5858) "/work"
     { context := "/work", componentSettings := none } rfl rfl⟩

/-! ## Image resolution -/

/-- When the first tag of the resolved stream carries a reference,
`getImageforDevfile` returns the image and the name of that reference. -/
theorem getImageforDevfile_first_tag (deps : Deps) (client : Client) (componentType : String)
    (ns name tag rest : String) (stream : ImageStream) (image : ImageStreamImage)
    (first : TagReference) (others : List TagReference) (reference : ObjectReference)
    (hp : deps.ParseImageName componentType = .ok (ns, name, tag, rest))
    (hs : client.GetImageStream ns name tag = .ok stream)
    (hi : client.GetImageStreamImage stream tag = .ok image)
    (ht : stream.Spec.Tags = first :: others) (hf : first.From = some reference) :
    getImageforDevfile deps client componentType = .ok (image, reference.Name) := by
  simp [getImageforDevfile, hp, hs, hi, ht, hf]

/-- C6: when the image-stream lookup and the image lookup both succeed and the
tag list of the resolved stream is empty, getImageforDevfile indexes position 0
of the empty list: the call panics with an index out of range, it returns no
error and no pull specification. -/
theorem C6_empty_tag_list_panics (deps : Deps) (client : Client) (componentType : String)
    (ns name tag rest : String) (stream : ImageStream) (image : ImageStreamImage)
    (hp : deps.ParseImageName componentType = .ok (ns, name, tag, rest))
    (hs : client.GetImageStream ns name tag = .ok stream)
    (hi : client.GetImageStreamImage stream tag = .ok image)
    (ht : stream.Spec.Tags = []) :
    getImageforDevfile deps client componentType
        = .panic "runtime error: index out of range [0] with length 0"
    ∧ ∀ e, getImageforDevfile deps client componentType ≠ .err e := by
  have h : getImageforDevfile deps client componentType
      = .panic "runtime error: index out of range [0] with length 0" := by
    simp [getImageforDevfile, hp, hs, hi, ht]
  refine ⟨h, ?_⟩
  intro e he
  rw [h] at he
  exact absurd he (by simp)

theorem C6_empty_tag_list_panics_witness :
    getImageforDevfile sampleDeps emptyTagsClient "openshift/nodejs:latest"
        = .panic "runtime error: index out of range [0] with length 0"
    ∧ ∀ e, getImageforDevfile sampleDeps emptyTagsClient "openshift/nodejs:latest" ≠ .err e :=
  C6_empty_tag_list_panics sampleDeps emptyTagsClient "openshift/nodejs:latest"
    "openshift" "nodejs" "latest" "" { Spec := { Tags := [] } } { Name := "nodejs-image" }
    rfl rfl rfl rfl

/-! ## Endpoints and volume mounts -/

/-- C8: when ListURLs returns the URLs, the Endpoints list of the container
component has one entry per URL, in the order of the URL list, with
Name, TargetPort and Secure copied from the URL name, port and secure flag. -/
theorem C8_endpoints_of_urls (d : DevfileData) (s2iImage : String)
    (localConfig : LocalConfigInfo) (s2iEnv : EnvVarList)
    (volumes : List ComponentStorageSettings) (urls : List ConfigURL)
    (hs : localConfig.ListStorage = .ok volumes) (hu : localConfig.ListURLs = .ok urls) :
    ∃ cc : devfilev1.ContainerComponent,
      setDevfileComponentsForS2I d s2iImage localConfig s2iEnv
        = .ok (d.AddComponents
            (volumes.map volumeComponentOf
              ++ [{ Name := containerName, ComponentUnion := { Container := some cc } }]))
      ∧ cc.Endpoints
          = urls.map (fun u =>
              ({ Name := u.Name, TargetPort := u.Port, Secure := u.Secure } : devfilev1.Endpoint))
      ∧ cc.Endpoints.length = urls.length
      ∧ ∀ (i : Nat) (u : ConfigURL), urls[i]? = some u →
          cc.Endpoints[i]? = some { Name := u.Name, TargetPort := u.Port, Secure := u.Secure } := by
  refine ⟨{ Container :=
              { Image := s2iImage
                MountSources := some true
                SourceMapping := "/tmp/projects"
                MemoryLimit := localConfig.GetMaxMemory
                Env := s2iEnv.map envVarOf ++ [markerEnv]
                VolumeMounts := volumes.map volumeMountOf }
            Endpoints := urls.map endpointOf }, ?_, rfl, ?_, ?_⟩
  · rw [setDevfileComponentsForS2I_ok d s2iImage localConfig s2iEnv volumes urls hs hu]
    rfl
  · simp
  · intro i u hi
    simp [List.getElem?_map, hi, endpointOf]

theorem C8_endpoints_of_urls_witness :
    sampleConfig.ListStorage = .ok sampleVolumes ∧ sampleConfig.ListURLs = .ok sampleURLs
    ∧ ∃ cc : devfilev1.ContainerComponent,
      setDevfileComponentsForS2I DevfileData.fresh "img" sampleConfig sampleEnv
        = .ok (DevfileData.fresh.AddComponents
            (sampleVolumes.map volumeComponentOf
              ++ [{ Name := containerName, ComponentUnion := { Container := some cc } }]))
      ∧ cc.Endpoints
          = sampleURLs.map (fun u =>
              ({ Name := u.Name, TargetPort := u.Port, Secure := u.Secure } : devfilev1.Endpoint))
      ∧ cc.Endpoints.length = sampleURLs.length
      ∧ ∀ (i : Nat) (u : ConfigURL), sampleURLs[i]? = some u →
          cc.Endpoints[i]? = some { Name := u.Name, TargetPort := u.Port, Secure := u.Secure } :=
  ⟨rfl, rfl,
    C8_endpoints_of_urls DevfileData.fresh "img" sampleConfig sampleEnv sampleVolumes sampleURLs
      rfl rfl⟩

/-- C9: when ListStorage returns the volumes, the VolumeMounts list of the
container component is one (Name, Path) pair per storage volume, in the order
of the storage list, and every mount is named after a component of Volume kind
of the component list of the descriptor. -/
theorem C9_mounts_reference_volumes (d : DevfileData) (s2iImage : String)
    (localConfig : LocalConfigInfo) (s2iEnv : EnvVarList)
    (volumes : List ComponentStorageSettings) (urls : List ConfigURL)
    (hs : localConfig.ListStorage = .ok volumes) (hu : localConfig.ListURLs = .ok urls) :
    ∃ (cc : devfilev1.ContainerComponent) (d2 : DevfileData),
      setDevfileComponentsForS2I d s2iImage localConfig s2iEnv = .ok d2
      ∧ d2.Components
          = d.Components ++ volumes.map volumeComponentOf
              ++ [{ Name := containerName, ComponentUnion := { Container := some cc } }]
      ∧ cc.Container.VolumeMounts
          = volumes.map (fun v => ({ Name := v.Name, Path := v.Path } : devfilev1.VolumeMount))
      ∧ ∀ m ∈ cc.Container.VolumeMounts,
          ∃ c ∈ d2.Components, isVolumeKind c = true ∧ c.Name = m.Name := by
  refine ⟨{ Container :=
              { Image := s2iImage
                MountSources := some true
                SourceMapping := "/tmp/projects"
                MemoryLimit := localConfig.GetMaxMemory
                Env := s2iEnv.map envVarOf ++ [markerEnv]
                VolumeMounts := volumes.map volumeMountOf }
            Endpoints := urls.map endpointOf }, _,
    setDevfileComponentsForS2I_ok d s2iImage localConfig s2iEnv volumes urls hs hu, ?_, rfl, ?_⟩
  · simp [DevfileData.AddComponents, containerOf, containerName]
  · intro m hm
    obtain ⟨v, hv, rfl⟩ := List.mem_map.1 hm
    refine ⟨volumeComponentOf v, ?_, rfl, rfl⟩
    simp only [DevfileData.AddComponents, List.mem_append, List.mem_map]
    exact Or.inr (Or.inl ⟨v, hv, rfl⟩)

theorem C9_mounts_reference_volumes_witness :
    sampleConfig.ListStorage = .ok sampleVolumes ∧ sampleConfig.ListURLs = .ok sampleURLs
    ∧ ∃ (cc : devfilev1.ContainerComponent) (d2 : DevfileData),
      setDevfileComponentsForS2I DevfileData.fresh "img" sampleConfig sampleEnv = .ok d2
      ∧ d2.Components
          = DevfileData.fresh.Components ++ sampleVolumes.map volumeComponentOf
              ++ [{ Name := containerName, ComponentUnion := { Container := some cc } }]
      ∧ cc.Container.VolumeMounts
          = sampleVolumes.map
              (fun v => ({ Name := v.Name, Path := v.Path } : devfilev1.VolumeMount))
      ∧ ∀ m ∈ cc.Container.VolumeMounts,
          ∃ c ∈ d2.Components, isVolumeKind c = true ∧ c.Name = m.Name :=
  ⟨rfl, rfl,
    C9_mounts_reference_volumes DevfileData.fresh "img" sampleConfig sampleEnv sampleVolumes
      sampleURLs rfl rfl⟩

/-! ## The write log -/

/-- C7: with the writes of the descriptor kept in a log, a run of
GenerateDevfileYaml writes at most once, and only the descriptor whose commands
and components are fully assembled, after every earlier stage has succeeded; if
the component type does not parse, the image-stream lookup fails or the image
lookup fails, the run returns that error wrapped and writes nothing; and if,
the image being resolved, the S2I env computation, the descriptor constructor,
ListStorage, ListURLs or the absolute path fails, the run returns an error and
writes nothing. -/
theorem C7_no_write_before_assembly (deps : Deps) (client : Client) (co : LocalConfigInfo)
    (context : String) :
    (GenerateDevfileYaml deps client co context).writes.length ≤ 1
    ∧ (∀ obj ∈ (GenerateDevfileYaml deps client co context).writes,
        ∃ isi img s2iEnv volumes urls ctx,
          getImageforDevfile deps client co.GetType = .ok (isi, img)
          ∧ deps.GetS2IEnvForDevfile co.GetSourceType co.GetEnvVars isi = .ok s2iEnv
          ∧ co.ListStorage = .ok volumes
          ∧ co.ListURLs = .ok urls
          ∧ deps.SetAbsPath (NewDevfileCtx (deps.filepathJoin context "devfile.yaml")) = .ok ctx
          ∧ obj.Ctx = ctx
          ∧ obj.Data.Commands = [buildCommand, runCommand]
          ∧ obj.Data.Components = s2iComponents img co.GetMaxMemory volumes urls s2iEnv)
    ∧ (∀ e, deps.ParseImageName co.GetType = .error e →
        (GenerateDevfileYaml deps client co context).result
            = .err (Wrap e "Failed to get image details")
          ∧ (GenerateDevfileYaml deps client co context).writes = [])
    ∧ (∀ ns name tag rest e, deps.ParseImageName co.GetType = .ok (ns, name, tag, rest) →
        client.GetImageStream ns name tag = .error e →
        (GenerateDevfileYaml deps client co context).result
            = .err (Wrap e "Failed to get image details")
          ∧ (GenerateDevfileYaml deps client co context).writes = [])
    ∧ (∀ ns name tag rest stream e, deps.ParseImageName co.GetType = .ok (ns, name, tag, rest) →
        client.GetImageStream ns name tag = .ok stream →
        client.GetImageStreamImage stream tag = .error e →
        (GenerateDevfileYaml deps client co context).result
            = .err (Wrap e "Failed to get image details")
          ∧ (GenerateDevfileYaml deps client co context).writes = [])
    ∧ (∀ isi img, getImageforDevfile deps client co.GetType = .ok (isi, img) →
        ((∃ e, deps.GetS2IEnvForDevfile co.GetSourceType co.GetEnvVars isi = .error e)
          ∨ (∃ e, deps.NewDevfileDataFails devfileVersion = some e)
          ∨ (∃ e, co.ListStorage = .error e)
          ∨ (∃ e, co.ListURLs = .error e)
          ∨ (∃ e, deps.SetAbsPath (NewDevfileCtx (deps.filepathJoin context "devfile.yaml"))
                = .error e)) →
        (∃ e, (GenerateDevfileYaml deps client co context).result = .err e)
          ∧ (GenerateDevfileYaml deps client co context).writes = []) := by
  refine ⟨?_, ?_, ?_, ?_, ?_, ?_⟩
  · rcases GenerateDevfileYaml_cases deps client co context with ⟨hw, -⟩ | hok
    · simp [hw]
    · obtain ⟨isi, img, s2iEnv, volumes, urls, ctx, -, -, -, -, -, -, hw, -⟩ := hok
      simp [hw]
  · intro obj hobj
    rcases GenerateDevfileYaml_cases deps client co context with ⟨hw, -⟩ | hok
    · rw [hw] at hobj
      exact absurd hobj (List.not_mem_nil _)
    · obtain ⟨isi, img, s2iEnv, volumes, urls, ctx, h1, h2, -, h4, h5, h6, hw, -⟩ := hok
      rw [hw] at hobj
      rw [List.mem_singleton] at hobj
      subst hobj
      exact ⟨isi, img, s2iEnv, volumes, urls, ctx, h1, h2, h4, h5, h6, rfl, rfl,
        (s2iComponents_eq img co.GetMaxMemory volumes urls s2iEnv).symm⟩
  · intro e hp
    have hg : getImageforDevfile deps client co.GetType = .err e := by
      simp [getImageforDevfile, hp]
    simp [GenerateDevfileYaml, hg]
  · intro ns name tag rest e hp hs
    have hg : getImageforDevfile deps client co.GetType = .err e := by
      simp [getImageforDevfile, hp, hs]
    simp [GenerateDevfileYaml, hg]
  · intro ns name tag rest stream e hp hs hi
    have hg : getImageforDevfile deps client co.GetType = .err e := by
      simp [getImageforDevfile, hp, hs, hi]
    simp [GenerateDevfileYaml, hg]
  · intro isi img hg hfail
    rcases GenerateDevfileYaml_cases deps client co context with
      ⟨hw, ⟨e, he⟩ | ⟨m, hm, -⟩⟩ | hok
    · exact ⟨⟨e, he⟩, hw⟩
    · rw [hg] at hm
      exact absurd hm (by simp)
    · obtain ⟨isi2, img2, s2iEnv, volumes, urls, ctx, h1, h2, h3, h4, h5, h6, -, -⟩ := hok
      rw [hg] at h1
      have hisi : isi = isi2 := by
        have := Outcome.ok.inj h1
        exact (Prod.mk.inj this).1
      subst hisi
      rcases hfail with ⟨e, he⟩ | ⟨e, he⟩ | ⟨e, he⟩ | ⟨e, he⟩ | ⟨e, he⟩
      · rw [h2] at he
        exact absurd he (by simp)
      · rw [h3] at he
        exact absurd he (by simp)
      · rw [h4] at he
        exact absurd he (by simp)
      · rw [h5] at he
        exact absurd he (by simp)
      · rw [h6] at he
        exact absurd he (by simp)

theorem C7_no_write_before_assembly_witness :
    getImageforDevfile sampleDeps sampleClient failingStorageConfig.GetType
        = .ok ({ Name := "nodejs-image" }, "registry.example/nodejs@sha256:0a")
    ∧ failingStorageConfig.ListStorage = .error "unable to list storage"
    ∧ (∃ e, (GenerateDevfileYaml sampleDeps sampleClient failingStorageConfig "/work").result
        = .err e)
    ∧ (GenerateDevfileYaml sampleDeps sampleClient failingStorageConfig "/work").writes = [] :=
  ⟨rfl, rfl,
    (C7_no_write_before_assembly sampleDeps sampleClient failingStorageConfig "/work").2.2.2.2.2
      { Name := "nodejs-image" } "registry.example/nodejs@sha256:0a" rfl
      (Or.inr (Or.inr (Or.inl ⟨"unable to list storage", rfl⟩)))⟩

/-! ## The number of environment variables -/

/-- C10 as stated fails: with an S2I env computation that appends the location
of the S2I scripts to the two legacy variables, the conversion succeeds and the
container has four EnvVar entries, not three. -/
theorem C10_env_count_counterexample :
    (GenerateDevfileYaml sampleDeps sampleClient sampleConfig "/work").result = .ok ()
    ∧ sampleConfig.GetEnvVars.length = 2
    ∧ ∃ (obj : DevfileObj) (cc : devfilev1.ContainerComponent),
        (GenerateDevfileYaml sampleDeps sampleClient sampleConfig "/work").writes = [obj]
        ∧ obj.Data.Components.filter isContainerKind
            = [{ Name := "s2i-builder", ComponentUnion := { Container := some cc } }]
        ∧ cc.Container.Env.length = 4
        ∧ cc.Container.Env.length ≠ sampleConfig.GetEnvVars.length + 1 := by
  refine ⟨rfl, rfl, _,
    { Container :=
        { Image := "registry.example/nodejs@sha256:0a"
          MountSources := some true
          SourceMapping := "/tmp/projects"
          MemoryLimit := "512Mi"
          Env := [ { Name := "FOO", Value := "bar" }, { Name := "BAZ", Value := "qux" },
                   { Name := "ODO_S2I_SCRIPTS_URL", Value := "/usr/libexec/s2i" },
                   { Name := "ODO_S2I_CONVERTED_DEVFILE", Value := "true" } ]
          VolumeMounts := [ { Name := "data", Path := "/data" },
                            { Name := "cache", Path := "/cache" } ] }
      Endpoints := [ { Name := "web", TargetPort := 8080, Secure := false },
                     { Name := "admin", TargetPort := 8443, Secure := true } ] },
    rfl, rfl, rfl, by decide⟩

/-- C10 amended: whenever GenerateDevfileYaml succeeds, the container component
of the descriptor it has written has one EnvVar entry more than the list that
GetS2IEnvForDevfile returned for the source type, the legacy variables and the
resolved image; it has the number of legacy variables plus one when that list
is as long as the list of legacy variables. -/
theorem C10_env_count_of_s2i_env (deps : Deps) (client : Client) (co : LocalConfigInfo)
    (context : String)
    (h : (GenerateDevfileYaml deps client co context).result = .ok ()) :
    ∃ (isi : ImageStreamImage) (img : String) (s2iEnv : EnvVarList) (obj : DevfileObj)
      (cc : devfilev1.ContainerComponent),
        getImageforDevfile deps client co.GetType = .ok (isi, img)
        ∧ deps.GetS2IEnvForDevfile co.GetSourceType co.GetEnvVars isi = .ok s2iEnv
        ∧ (GenerateDevfileYaml deps client co context).writes = [obj]
        ∧ obj.Data.Components.filter isContainerKind
            = [{ Name := "s2i-builder", ComponentUnion := { Container := some cc } }]
        ∧ cc.Container.Env.length = s2iEnv.length + 1
        ∧ (s2iEnv.length = co.GetEnvVars.length →
            cc.Container.Env.length = co.GetEnvVars.length + 1) := by
  rcases GenerateDevfileYaml_cases deps client co context with ⟨-, ⟨e, he⟩ | ⟨m, -, hm⟩⟩ | hok
  · rw [h] at he
    exact absurd he (by simp)
  · rw [h] at hm
    exact absurd hm (by simp)
  · obtain ⟨isi, img, s2iEnv, volumes, urls, ctx, h1, h2, -, -, -, -, hw, -⟩ := hok
    refine ⟨isi, img, s2iEnv, _,
      { Container :=
          { Image := img
            MountSources := some true
            SourceMapping := "/tmp/projects"
            MemoryLimit := co.GetMaxMemory
            Env := s2iEnv.map envVarOf ++ [markerEnv]
            VolumeMounts := volumes.map volumeMountOf }
        Endpoints := urls.map endpointOf }, h1, h2, hw, ?_, ?_, ?_⟩
    · simp only [assembledDevfile]
      rw [List.filter_append, filter_isContainerKind_map]
      simp [List.filter, isContainerKind, containerOf]
    · simp
    · intro hlen
      simp [hlen]

theorem C10_env_count_of_s2i_env_witness :
    (GenerateDevfileYaml sampleDeps sampleClient sampleConfig "/work").result = .ok ()
    ∧ ∃ (isi : ImageStreamImage) (img : String) (s2iEnv : EnvVarList) (obj : DevfileObj)
      (cc : devfilev1.ContainerComponent),
        getImageforDevfile sampleDeps sampleClient sampleConfig.GetType = .ok (isi, img)
        ∧ sampleDeps.GetS2IEnvForDevfile sampleConfig.GetSourceType sampleConfig.GetEnvVars isi
            = .ok s2iEnv
        ∧ (GenerateDevfileYaml sampleDeps sampleClient sampleConfig "/work").writes = [obj]
        ∧ obj.Data.Components.filter isContainerKind
            = [{ Name := "s2i-builder", ComponentUnion := { Container := some cc } }]
        ∧ cc.Container.Env.length = s2iEnv.length + 1
        ∧ (s2iEnv.length = sampleConfig.GetEnvVars.length →
            cc.Container.Env.length = sampleConfig.GetEnvVars.length + 1) :=
  ⟨rfl, C10_env_count_of_s2i_env sampleDeps sampleClient sampleConfig "/work" rfl⟩

/-! ## Errors of the component builder -/

/-- C11: setDevfileComponentsForS2I returns an error exactly when ListStorage
or ListURLs returns one, and then it is that error unchanged, the one of
ListStorage first; when both lookups succeed, with empty lists too, it returns
no error. -/
theorem C11_error_iff_lookup_error (d : DevfileData) (s2iImage : String)
    (localConfig : LocalConfigInfo) (s2iEnv : EnvVarList) :
    ((∃ e, setDevfileComponentsForS2I d s2iImage localConfig s2iEnv = .error e)
        ↔ ((∃ e, localConfig.ListStorage = .error e) ∨ (∃ e, localConfig.ListURLs = .error e)))
    ∧ (∀ e, localConfig.ListStorage = .error e →
        setDevfileComponentsForS2I d s2iImage localConfig s2iEnv = .error e)
    ∧ (∀ volumes e, localConfig.ListStorage = .ok volumes → localConfig.ListURLs = .error e →
        setDevfileComponentsForS2I d s2iImage localConfig s2iEnv = .error e)
    ∧ (∀ volumes urls, localConfig.ListStorage = .ok volumes → localConfig.ListURLs = .ok urls →
        ∃ d2, setDevfileComponentsForS2I d s2iImage localConfig s2iEnv = .ok d2)
    ∧ (localConfig.ListStorage = .ok [] → localConfig.ListURLs = .ok [] →
        ∃ d2, setDevfileComponentsForS2I d s2iImage localConfig s2iEnv = .ok d2) := by
  have hstorage : ∀ e, localConfig.ListStorage = .error e →
      setDevfileComponentsForS2I d s2iImage localConfig s2iEnv = .error e := by
    intro e he
    simp [setDevfileComponentsForS2I, he]
  have hurls : ∀ volumes e, localConfig.ListStorage = .ok volumes →
      localConfig.ListURLs = .error e →
      setDevfileComponentsForS2I d s2iImage localConfig s2iEnv = .error e := by
    intro volumes e hv he
    simp [setDevfileComponentsForS2I, hv, he]
  have hok : ∀ volumes urls, localConfig.ListStorage = .ok volumes →
      localConfig.ListURLs = .ok urls →
      ∃ d2, setDevfileComponentsForS2I d s2iImage localConfig s2iEnv = .ok d2 := by
    intro volumes urls hv hu
    exact ⟨_, setDevfileComponentsForS2I_ok d s2iImage localConfig s2iEnv volumes urls hv hu⟩
  refine ⟨⟨?_, ?_⟩, hstorage, hurls, hok, hok [] []⟩
  · rintro ⟨e, he⟩
    cases hv : localConfig.ListStorage with
    | error e1 => exact Or.inl ⟨e1, rfl⟩
    | ok volumes =>
      cases hu : localConfig.ListURLs with
      | error e2 => exact Or.inr ⟨e2, rfl⟩
      | ok urls =>
        obtain ⟨d2, hd2⟩ := hok volumes urls hv hu
        rw [hd2] at he
        exact absurd he (by simp)
  · rintro (⟨e, he⟩ | ⟨e, he⟩)
    · exact ⟨e, hstorage e he⟩
    · cases hv : localConfig.ListStorage with
      | error e1 => exact ⟨e1, hstorage e1 hv⟩
      | ok volumes => exact ⟨e, hurls volumes e hv he⟩

theorem C11_error_iff_lookup_error_witness :
    failingStorageConfig.ListStorage = .error "unable to list storage"
    ∧ setDevfileComponentsForS2I DevfileData.fresh "img" failingStorageConfig sampleEnv
        = .error "unable to list storage" :=
  ⟨rfl,
    (C11_error_iff_lookup_error DevfileData.fresh "img" failingStorageConfig sampleEnv).2.1
      "unable to list storage" rfl⟩

/-! ## The fixed fields of the container -/

/-- C12: for every pull specification and every legacy config whose lookups
succeed, the Container component built by setDevfileComponentsForS2I is named
"s2i-builder", its Image is the pull specification, MountSources is present
and true, SourceMapping is "/tmp/projects" and MemoryLimit is the max-memory
limit of the config, whatever the storage, URL and env lists. -/
theorem C12_container_fixed_fields (d : DevfileData) (s2iImage : String)
    (localConfig : LocalConfigInfo) (s2iEnv : EnvVarList)
    (volumes : List ComponentStorageSettings) (urls : List ConfigURL)
    (hs : localConfig.ListStorage = .ok volumes) (hu : localConfig.ListURLs = .ok urls) :
    ∃ cc : devfilev1.ContainerComponent,
      setDevfileComponentsForS2I d s2iImage localConfig s2iEnv
        = .ok (d.AddComponents
            (volumes.map volumeComponentOf
              ++ [{ Name := "s2i-builder", ComponentUnion := { Container := some cc } }]))
      ∧ cc.Container.Image = s2iImage
      ∧ cc.Container.MountSources = some true
      ∧ cc.Container.SourceMapping = "/tmp/projects"
      ∧ cc.Container.MemoryLimit = localConfig.GetMaxMemory
      ∧ containerName = "s2i-builder"
      ∧ sourceMappingS2i = "/tmp/projects" := by
  refine ⟨{ Container :=
              { Image := s2iImage
                MountSources := some true
                SourceMapping := "/tmp/projects"
                MemoryLimit := localConfig.GetMaxMemory
                Env := s2iEnv.map envVarOf ++ [markerEnv]
                VolumeMounts := volumes.map volumeMountOf }
            Endpoints := urls.map endpointOf }, ?_, rfl, rfl, rfl, rfl, rfl, rfl⟩
  rw [setDevfileComponentsForS2I_ok d s2iImage localConfig s2iEnv volumes urls hs hu]
  rfl

theorem C12_container_fixed_fields_witness :
    sampleConfig.ListStorage = .ok sampleVolumes ∧ sampleConfig.ListURLs = .ok sampleURLs
    ∧ ∃ cc : devfilev1.ContainerComponent,
      setDevfileComponentsForS2I DevfileData.fresh "registry.example/nodejs@sha256:0a"
          sampleConfig sampleEnv
        = .ok (DevfileData.fresh.AddComponents
            (sampleVolumes.map volumeComponentOf
              ++ [{ Name := "s2i-builder", ComponentUnion := { Container := some cc } }]))
      ∧ cc.Container.Image = "registry.example/nodejs@sha256:0a"
      ∧ cc.Container.MountSources = some true
      ∧ cc.Container.SourceMapping = "/tmp/projects"
      ∧ cc.Container.MemoryLimit = sampleConfig.GetMaxMemory
      ∧ containerName = "s2i-builder"
      ∧ sourceMappingS2i = "/tmp/projects" :=
  ⟨rfl, rfl,
    C12_container_fixed_fields DevfileData.fresh "registry.example/nodejs@sha256:0a" sampleConfig
      sampleEnv sampleVolumes sampleURLs rfl rfl⟩

/-! ## Schema version, metadata and path -/

/-- C13: every descriptor that GenerateDevfileYaml hands to the writer has
schema version "2.0.0", metadata name equal to the name of the legacy config
and metadata version "1.0.0", and its context is the one that SetAbsPath made
of the path obtained by joining the workspace directory with "devfile.yaml". -/
theorem C13_version_metadata_path (deps : Deps) (client : Client) (co : LocalConfigInfo)
    (context : String) (obj : DevfileObj)
    (h : obj ∈ (GenerateDevfileYaml deps client co context).writes) :
    obj.Data.SchemaVersion = "2.0.0"
    ∧ obj.Data.Metadata.Name = co.GetName
    ∧ obj.Data.Metadata.Version = "1.0.0"
    ∧ deps.SetAbsPath (NewDevfileCtx (deps.filepathJoin context "devfile.yaml")) = .ok obj.Ctx
    ∧ (NewDevfileCtx (deps.filepathJoin context "devfile.yaml")).relPath
        = deps.filepathJoin context "devfile.yaml"
    ∧ devfileVersion = "2.0.0" := by
  rcases GenerateDevfileYaml_cases deps client co context with ⟨hw, -⟩ | hok
  · rw [hw] at h
    exact absurd h (List.not_mem_nil _)
  · obtain ⟨isi, img, s2iEnv, volumes, urls, ctx, -, -, -, -, -, h6, hw, -⟩ := hok
    rw [hw, List.mem_singleton] at h
    subst h
    exact ⟨rfl, rfl, rfl, h6, rfl, rfl⟩

theorem C13_version_metadata_path_witness :
    (GenerateDevfileYaml sampleDeps sampleClient sampleConfig "/work").writes
        = [{ Ctx := { relPath := "/work/devfile.yaml", absPath := "/work/devfile.yaml" }
             Data := assembledDevfile "registry.example/nodejs@sha256:0a" sampleConfig
               (sampleEnv ++ [{ Name := "ODO_S2I_SCRIPTS_URL", Value := "/usr/libexec/s2i" }])
               sampleVolumes sampleURLs }]
    ∧ (assembledDevfile "registry.example/nodejs@sha256:0a" sampleConfig
          (sampleEnv ++ [{ Name := "ODO_S2I_SCRIPTS_URL", Value := "/usr/libexec/s2i" }])
          sampleVolumes sampleURLs).SchemaVersion = "2.0.0"
    ∧ (assembledDevfile "registry.example/nodejs@sha256:0a" sampleConfig
          (sampleEnv ++ [{ Name := "ODO_S2I_SCRIPTS_URL", Value := "/usr/libexec/s2i" }])
          sampleVolumes sampleURLs).Metadata.Name = "frontend" :=
  have hw : (GenerateDevfileYaml sampleDeps sampleClient sampleConfig "/work").writes
      = [{ Ctx := { relPath := "/work/devfile.yaml", absPath := "/work/devfile.yaml" }
           Data := assembledDevfile "registry.example/nodejs@sha256:0a" sampleConfig
             (sampleEnv ++ [{ Name := "ODO_S2I_SCRIPTS_URL", Value := "/usr/libexec/s2i" }])
             sampleVolumes sampleURLs }] := by decide
  have hc := C13_version_metadata_path sampleDeps sampleClient sampleConfig "/work"
    { Ctx := { relPath := "/work/devfile.yaml", absPath := "/work/devfile.yaml" }
      Data := assembledDevfile "registry.example/nodejs@sha256:0a" sampleConfig
        (sampleEnv ++ [{ Name := "ODO_S2I_SCRIPTS_URL", Value := "/usr/libexec/s2i" }])
        sampleVolumes sampleURLs }
    (by rw [hw]; exact List.mem_singleton.2 rfl)
  ⟨hw, hc.1, hc.2.1⟩

end Convert

/-! # The port pair of the port-forward command -/

namespace Debug

open Convert

/-- When `--local-port` is given, `Complete` builds the pair of that port and
the debug port of the configuration. -/
theorem Complete_local_port_given (NewLocalConfigInfo : String → Except Error LocalConfigInfo)
    (DefaultDebugPort : Int) (contextFlag : Option String) (port : Int) (cfg : LocalConfigInfo)
    (hcfg : NewLocalConfigInfo (NewCmdPortForward DefaultDebugPort contextFlag (some port)).contextDir
      = .ok cfg) :
    ∃ o, Complete NewLocalConfigInfo (NewCmdPortForward DefaultDebugPort contextFlag (some port))
        = .ok o
      ∧ o.PortPair = formatInt port ++ ":" ++ formatInt cfg.GetDebugPort := by
  simp only [Complete, hcfg]
  exact ⟨_, rfl, rfl⟩

/-- C14: the pair that Complete builds is the local port, a colon and the debug
port of the configuration, where the local port is the value of --local-port
when the flag is given and DefaultDebugPort when it is not. Without the flag
the two ports of the pair are therefore DefaultDebugPort and the debug port of
the configuration, which are the same only when the configuration records the
default port. -/
theorem C14_port_pair (NewLocalConfigInfo : String → Except Error LocalConfigInfo)
    (DefaultDebugPort : Int) (contextFlag : Option String) (localPortFlag : Option Int)
    (cfg : LocalConfigInfo)
    (hcfg : NewLocalConfigInfo
        (NewCmdPortForward DefaultDebugPort contextFlag localPortFlag).contextDir = .ok cfg) :
    ∃ o, Complete NewLocalConfigInfo (NewCmdPortForward DefaultDebugPort contextFlag localPortFlag)
        = .ok o
      ∧ o.PortPair
          = formatInt (localPortFlag.getD DefaultDebugPort) ++ ":" ++ formatInt cfg.GetDebugPort
      ∧ (localPortFlag = none →
          o.PortPair = formatInt DefaultDebugPort ++ ":" ++ formatInt cfg.GetDebugPort) := by
  cases localPortFlag with
  | none =>
    simp only [Complete, hcfg]
    exact ⟨_, rfl, rfl, fun _ => rfl⟩
  | some port =>
    simp only [Complete, hcfg]
    exact ⟨_, rfl, rfl, fun hnone => absurd hnone (by simp)⟩

theorem C14_port_pair_witness :
    ∃ o, Complete (fun _ => .ok inspectorConfig) (NewCmdPortForward 5858 none none) = .ok o
      ∧ o.PortPair = "5858:9229"
      ∧ inspectorConfig.GetDebugPort = 9229 := by
  obtain ⟨o, ho, hpair, -⟩ :=
    C14_port_pair (fun _ => .ok inspectorConfig) 5858 none none inspectorConfig rfl
  refine ⟨o, ho, ?_, rfl⟩
  rw [hpair]
  decide

end Debug
